/-
Verification of the Vienna weather monitoring repository
(`simple-pipeline.py`, `weather_auto_rabbitmq.py`) against its
natural-language specification.

The Python sources are shallowly embedded as executable Lean definitions.
External effects (HTTP calls, subprocess invocations, the wall clock, the
broker) are modelled as explicit environment inputs; machine behaviour that
the code only prints (and that influences no result) is noted in doc
comments but not reflected into the result types.
-/
import Mathlib

namespace ViennaWeather

/-! ## Pipeline embedding (`simple-pipeline.py`)

The pipeline class `SimpleViennaWeatherPipeline` runs four stages
(clone, build, unittest, deploy).  Each stage body ends by recording a
`stage_results` entry, sending one notification, and returning a boolean
continue/halt signal.  In every branch of every stage the recorded status
and the status sent in the notification coincide, so a single `Status`
value per branch models both. -/

/-- Stage status strings used by `simple-pipeline.py`
(`"success"`, `"warning"`, `"failed"`). -/
inductive Status
  | success
  | warning
  | failed
deriving DecidableEq, Repr

/-- Outcome of one HTTP POST notification attempt, as seen by
`send_notification`: either a response with a status code, or a raised
exception (e.g. the search engine being unreachable). -/
inductive NotifResult
  | response (code : Nat)
  | exn
deriving DecidableEq, Repr

/-- `send_notification` (simple-pipeline.py:37-59): posts the notification
document and inspects the outcome only to the extent of an
`if response.status_code in [200, 201]: pass` and a blanket
`except Exception: pass`; both branches do nothing, so the function
returns unit whatever the outcome. -/
def send_notification (r : NotifResult) : Unit :=
  match r with
  | .response code => if code = 200 ∨ code = 201 then () else ()
  | .exn => ()

/-- Result of one stage body: the recorded `stage_results` status, the
boolean continue/halt signal returned to `run_pipeline`, and the
notification documents (stage name, status) sent during the stage. -/
structure StageOutcome where
  status : Status
  cont : Bool
  notifs : List (String × Status)
deriving DecidableEq, Repr

/-- Environment of `run_stage_clone` (simple-pipeline.py:61-146):
whether `project_root/.git` exists, the exit code of `git clone` (consulted
only when the clone is performed), which files exist in the validation
root, and whether an unexpected exception is raised in the stage body
(modelled as raised at stage entry). -/
structure CloneEnv where
  inGitRepo : Bool
  cloneExit : Nat
  filePresent : String → Bool
  excRaised : Bool

/-- The `required_files` list of `run_stage_clone`
(simple-pipeline.py:102-107): four entries. -/
def requiredFilesClone : List String :=
  ["weather_auto_rabbitmq.py", "docker-compose.yml", "pipeline-config.json",
   "simple-pipeline.py"]

/-- `missing_files` as computed by the loop at simple-pipeline.py:109-112. -/
def missingFiles (e : CloneEnv) : List String :=
  requiredFilesClone.filter (fun f => ! e.filePresent f)

/-- `run_stage_clone` (simple-pipeline.py:61-146).  If already in a git
repository the clone is skipped; otherwise a non-zero `git clone` exit is a
stage failure.  Then the four required files are checked; any missing file
is a stage failure.  The best-effort `git rev-parse` affects only printed
output.  Every branch sends exactly one notification. -/
def run_stage_clone (e : CloneEnv) (n : NotifResult) : StageOutcome :=
  let _u : Unit := send_notification n
  if e.excRaised then ⟨.failed, false, [("clone", .failed)]⟩
  else if !e.inGitRepo && e.cloneExit != 0 then
    ⟨.failed, false, [("clone", .failed)]⟩
  else if !(missingFiles e).isEmpty then
    ⟨.failed, false, [("clone", .failed)]⟩
  else ⟨.success, true, [("clone", .success)]⟩

/-- External interactions performed by `run_stage_clone`, in order.  The
package checks, installs and prints of the other stages are warning-only
and result-irrelevant; here the actions matter to the spec (clone,
file validation, commit-hash inspection).  On the unexpected-exception
path the exception is modelled as raised at stage entry, before any
action. -/
inductive CloneAction
  | gitCloneCall
  | fileCheck (name : String)
  | gitRevParseCall
deriving DecidableEq, Repr

/-- Trace of external actions of `run_stage_clone`: `git clone` runs iff
no `.git` marker is present; the file loop checks all four required files;
`git rev-parse --short HEAD` runs only after validation passes. -/
def clone_actions (e : CloneEnv) : List CloneAction :=
  if e.excRaised then []
  else if e.inGitRepo then
    requiredFilesClone.map .fileCheck ++
      (if (missingFiles e).isEmpty then [.gitRevParseCall] else [])
  else if e.cloneExit != 0 then [.gitCloneCall]
  else
    .gitCloneCall :: (requiredFilesClone.map .fileCheck ++
      (if (missingFiles e).isEmpty then [.gitRevParseCall] else []))

/-- `run_stage_build` (simple-pipeline.py:148-229): all dependency,
installation and container checks report warnings only; the stage records
`success` and continues unless an unexpected exception escapes the
checks, which records `failed` and halts. -/
def run_stage_build (excRaised : Bool) (n : NotifResult) : StageOutcome :=
  let _u : Unit := send_notification n
  if excRaised then ⟨.failed, false, [("build", .failed)]⟩
  else ⟨.success, true, [("build", .success)]⟩

/-- Environment of `run_stage_unittest` (simple-pipeline.py:231-279):
presence of `pipeline-config.json`, the httpbin reachability probe, the
informational search-engine probe, and the unexpected-exception flag. -/
structure UnittestEnv where
  configPresent : Bool
  apiOk : Bool
  esOk : Bool
  excRaised : Bool

/-- The hardcoded `data_valid = True` placeholder check
(simple-pipeline.py:250). -/
def data_valid : Bool := true

/-- `run_stage_unittest` (simple-pipeline.py:231-279):
`all_tests_passed = config_valid and api_valid and data_valid` (the
search-engine probe `es_valid` is printed but not gating); `success` and
continue when it holds, `warning` and continue otherwise, `failed` and
halt only on an unexpected exception. -/
def run_stage_unittest (e : UnittestEnv) (n : NotifResult) : StageOutcome :=
  let _u : Unit := send_notification n
  if e.excRaised then ⟨.failed, false, [("unittest", .failed)]⟩
  else if e.configPresent && e.apiOk && data_valid then
    ⟨.success, true, [("unittest", .success)]⟩
  else ⟨.warning, true, [("unittest", .warning)]⟩

/-- Environment of `run_stage_deploy` (simple-pipeline.py:281-412): the
three live-service probes (search-engine cluster health, dashboard status,
broker management overview — each true iff the HTTP request returned 200
and, for the search engine, its body parsed), and the
unexpected-exception flag.  The ELK setup-script execution and the docker
container listing earlier in the stage are wrapped in their own
try/except blocks and only print warnings; they influence no result. -/
structure DeployEnv where
  esOk : Bool
  kibanaOk : Bool
  rabbitOk : Bool
  excRaised : Bool

/-- `run_stage_deploy` (simple-pipeline.py:281-412): tallies `services_ok`
over the three probes; records `success` when at least 2 succeeded, else
`warning`; returns the continue signal in both cases; an unexpected
exception records `failed` and halts. -/
def run_stage_deploy (e : DeployEnv) (n : NotifResult) : StageOutcome :=
  let _u : Unit := send_notification n
  if e.excRaised then ⟨.failed, false, [("deploy", .failed)]⟩
  else
    let services_ok : Nat := 0
    let services_ok := if e.esOk then services_ok + 1 else services_ok
    let services_ok := if e.kibanaOk then services_ok + 1 else services_ok
    let services_ok := if e.rabbitOk then services_ok + 1 else services_ok
    if 2 ≤ services_ok then ⟨.success, true, [("deploy", .success)]⟩
    else ⟨.warning, true, [("deploy", .warning)]⟩

/-- The fixed stage order of `run_pipeline` (simple-pipeline.py:419-424). -/
def pipelineStages : List String := ["clone", "build", "unittest", "deploy"]

/-- Combined environment of one pipeline run. -/
structure PipelineEnv where
  clone : CloneEnv
  buildExc : Bool
  ut : UnittestEnv
  deploy : DeployEnv

/-- Result of `run_pipeline`: the stages that executed (in execution
order), the reported `success_count`, the recorded per-stage statuses,
the overall boolean returned to `main`, and all notification documents
sent (per-stage ones plus the final `"pipeline"` summary). -/
structure PipelineResult where
  executed : List String
  successCount : Nat
  stageResults : List (String × Status)
  overall : Bool
  notifDocs : List (String × Status)
deriving DecidableEq, Repr

/-- `run_pipeline` (simple-pipeline.py:414-462): runs the four stages in
order, incrementing `success_count` on each stage that returns the
continue signal and breaking at the first stage that does not; reports
`success_count`; sends one final `"pipeline"` notification (`success` iff
all four stages completed); returns true iff `success_count == 4`. -/
def run_pipeline (e : PipelineEnv) (notif : Nat → NotifResult) : PipelineResult :=
  let o1 := run_stage_clone e.clone (notif 0)
  if o1.cont then
    let o2 := run_stage_build e.buildExc (notif 1)
    if o2.cont then
      let o3 := run_stage_unittest e.ut (notif 2)
      if o3.cont then
        let o4 := run_stage_deploy e.deploy (notif 3)
        if o4.cont then
          { executed := ["clone", "build", "unittest", "deploy"]
            successCount := 4
            stageResults := [("clone", o1.status), ("build", o2.status),
              ("unittest", o3.status), ("deploy", o4.status)]
            overall := true
            notifDocs := o1.notifs ++ o2.notifs ++ o3.notifs ++ o4.notifs ++
              [("pipeline", .success)] }
        else
          { executed := ["clone", "build", "unittest", "deploy"]
            successCount := 3
            stageResults := [("clone", o1.status), ("build", o2.status),
              ("unittest", o3.status), ("deploy", o4.status)]
            overall := false
            notifDocs := o1.notifs ++ o2.notifs ++ o3.notifs ++ o4.notifs ++
              [("pipeline", .failed)] }
      else
        { executed := ["clone", "build", "unittest"]
          successCount := 2
          stageResults := [("clone", o1.status), ("build", o2.status),
            ("unittest", o3.status)]
          overall := false
          notifDocs := o1.notifs ++ o2.notifs ++ o3.notifs ++
            [("pipeline", .failed)] }
    else
      { executed := ["clone", "build"]
        successCount := 1
        stageResults := [("clone", o1.status), ("build", o2.status)]
        overall := false
        notifDocs := o1.notifs ++ o2.notifs ++ [("pipeline", .failed)] }
  else
    { executed := ["clone"]
      successCount := 0
      stageResults := [("clone", o1.status)]
      overall := false
      notifDocs := o1.notifs ++ [("pipeline", .failed)] }

/-- `main` (simple-pipeline.py:464-471): exit status 0 when
`run_pipeline` returned true, 1 when it returned false, and 1 when an
uncaught exception escaped pipeline construction or execution (the
`.error` case). -/
def mainExit : Except Unit Bool → Nat
  | .ok true => 0
  | .ok false => 1
  | .error _ => 1

/-! ## Monitor embedding (`weather_auto_rabbitmq.py`) -/

/-- The module-level `API_KEY` constant (weather_auto_rabbitmq.py:9). -/
def API_KEY : String := "7ea63a60ef095d75baf077171165c148"

/-- Kinds of Python exception relevant to `get_vienna_weather`:
a `requests.exceptions.RequestException` (transport failure or the
`HTTPError` raised by `raise_for_status`), the `JSONDecodeError` raised
by `response.json()` on a body that is not valid JSON, a `KeyError` from
a missing dictionary key, and an `IndexError` from indexing an empty
list. -/
inductive PyExc
  | requestException
  | jsonDecodeError
  | keyError
  | indexError
deriving DecidableEq, Repr

/-- Which exception kinds are instances of
`requests.exceptions.RequestException`.  Since requests 2.27 (2022),
`Response.json()` raises `requests.exceptions.JSONDecodeError`, which
subclasses `InvalidJSONError`, itself a `RequestException` subclass; so
`jsonDecodeError` is an instance.  `KeyError` and `IndexError` are not. -/
def PyExc.isRequestException : PyExc → Bool
  | .requestException => true
  | .jsonDecodeError => true
  | .keyError => false
  | .indexError => false

/-- A `weather[i]` condition object; `description` may be absent. -/
structure Cond where
  description : Option String
deriving DecidableEq, Repr

/-- The `main` sub-object of an observation; every field may be absent.
Numeric values are modelled as integers (their magnitudes are irrelevant
to every claim; only presence matters). -/
structure MainObj where
  temp : Option Int
  feels_like : Option Int
  temp_min : Option Int
  temp_max : Option Int
  humidity : Option Int
  pressure : Option Int
deriving DecidableEq, Repr

/-- The `wind` sub-object. -/
structure Wind where
  speed : Option Int
deriving DecidableEq, Repr

/-- The `clouds` sub-object. -/
structure Clouds where
  all : Option Int
deriving DecidableEq, Repr

/-- A parsed weather-API response body (`WeatherObservation`): each
top-level key may be absent (`none`); `visibility` is optional in the
API itself and is membership-guarded in the code. -/
structure WeatherBody where
  weather : Option (List Cond)
  main : Option MainObj
  wind : Option Wind
  clouds : Option Clouds
  visibility : Option Int
deriving DecidableEq, Repr

/-- An HTTP response body: either not valid JSON, or a parsed body. -/
inductive HttpBody
  | invalidJson
  | json (b : WeatherBody)
deriving DecidableEq, Repr

/-- Outcome of the `requests.get` call: a transport-level failure
(raising a `RequestException`), or a response with a status code and
body. -/
inductive HttpResult
  | transportFail
  | response (status : Nat) (body : HttpBody)
deriving DecidableEq, Repr

/-- Python dictionary/attribute access `d['k']`: raises `KeyError` when
the key is absent. -/
def dictGet {α : Type} (o : Option α) : Except PyExc α :=
  match o with
  | none => .error .keyError
  | some v => .ok v

/-- Python list indexing `l[0]`: raises `IndexError` on an empty list. -/
def listGet0 {α : Type} (l : List α) : Except PyExc α :=
  match l with
  | [] => .error .indexError
  | x :: _ => .ok x

/-- The sequence of key accesses performed by the report-printing part of
`get_vienna_weather` (weather_auto_rabbitmq.py:232-242), in source
order: `weather[0].description`, `main.temp`, `main.feels_like`,
`main.temp_min`, `main.temp_max`, `main.humidity`, `wind.speed`,
`main.pressure`, `clouds.all`; the `visibility` access is guarded by a
membership test and can raise nothing. -/
def renderAccesses (b : WeatherBody) : Except PyExc Unit := do
  let w ← dictGet b.weather
  let w0 ← listGet0 w
  let _ ← dictGet w0.description
  let m ← dictGet b.main
  let _ ← dictGet m.temp
  let _ ← dictGet m.feels_like
  let _ ← dictGet m.temp_min
  let _ ← dictGet m.temp_max
  let _ ← dictGet m.humidity
  let wi ← dictGet b.wind
  let _ ← dictGet wi.speed
  let _ ← dictGet m.pressure
  let c ← dictGet b.clouds
  let _ ← dictGet c.all
  pure ()

/-- The body of the `try:` block of `get_vienna_weather`
(weather_auto_rabbitmq.py:221-246): the GET call (transport failure
raises), `raise_for_status()` (raises `HTTPError` exactly for status
codes 400-599), `response.json()` (raises `JSONDecodeError` on an
invalid body), the report accesses, then `return data`. -/
def fetchTryBody (http : HttpResult) : Except PyExc WeatherBody :=
  match http with
  | .transportFail => .error .requestException
  | .response status body =>
    if 400 ≤ status ∧ status < 600 then .error .requestException
    else match body with
      | .invalidJson => .error .jsonDecodeError
      | .json b => do
        let _ ← renderAccesses b
        pure b

/-- `get_vienna_weather` (weather_auto_rabbitmq.py:207-253).  First
component: `.ok none` models `return None` (placeholder key, caught
`RequestException`, caught `KeyError`); `.ok (some b)` models returning
the parsed observation; `.error e` models an exception propagating
uncaught to the caller.  Second component: whether a network call was
made. -/
def get_vienna_weather (apiKey : String) (http : HttpResult) :
    Except PyExc (Option WeatherBody) × Bool :=
  if apiKey = "YOUR_API_KEY_HERE" then (.ok none, false)
  else
    match fetchTryBody http with
    | .ok b => (.ok (some b), true)
    | .error e =>
      if e.isRequestException then (.ok none, true)
      else if e = .keyError then (.ok none, true)
      else (.error e, true)

/-- A wall-clock value as used by the monitor (`datetime.now()`), at the
granularity the code consumes: calendar date, time of day, and
milliseconds. -/
structure PDateTime where
  year : Nat
  month : Nat
  day : Nat
  hour : Nat
  minute : Nat
  second : Nat
  millisecond : Nat
deriving DecidableEq, Repr

/-- Strict chronological order on clock values (lexicographic on
date then time-of-day then milliseconds). -/
def PDateTime.lt (a b : PDateTime) : Bool :=
  if a.year ≠ b.year then a.year < b.year
  else if a.month ≠ b.month then a.month < b.month
  else if a.day ≠ b.day then a.day < b.day
  else if a.hour ≠ b.hour then a.hour < b.hour
  else if a.minute ≠ b.minute then a.minute < b.minute
  else if a.second ≠ b.second then a.second < b.second
  else a.millisecond < b.millisecond

/-- The next-check display computation
(weather_auto_rabbitmq.py:342):
`datetime.now().replace(hour=(hour + 1) % 24, minute=0, second=0)` —
hour incremented modulo 24, minute and second zeroed, every other field
(including the date and the sub-second part) left unchanged. -/
def nextCheckTime (t : PDateTime) : PDateTime :=
  { t with hour := (t.hour + 1) % 24, minute := 0, second := 0 }

/-- Left-pad the decimal rendering of `n` with zeros to width `w`. -/
def padZeros (w : Nat) (n : Nat) : String :=
  let s := toString n
  String.mk (List.replicate (w - s.length) '0') ++ s

/-- `datetime.isoformat(timespec='milliseconds')`:
`YYYY-MM-DDTHH:MM:SS.mmm`. -/
def isoMillis (t : PDateTime) : String :=
  padZeros 4 t.year ++ "-" ++ padZeros 2 t.month ++ "-" ++ padZeros 2 t.day ++
    "T" ++ padZeros 2 t.hour ++ ":" ++ padZeros 2 t.minute ++ ":" ++
    padZeros 2 t.second ++ "." ++ padZeros 3 t.millisecond

/-- Abstraction of `int(datetime.timestamp() * 1000)`: a definite
injective millisecond encoding of the clock value (the exact epoch
offset is irrelevant to every claim). -/
def epochMillis (t : PDateTime) : Nat :=
  ((((t.year * 400 + t.month * 32 + t.day) * 24 + t.hour) * 60 + t.minute)
    * 60 + t.second) * 1000 + t.millisecond

/-- One line of the backup log `vienna_weather_log.json`, as built by
`save_to_log` (weather_auto_rabbitmq.py:263-275).  The three
time-derived strings of the entry are represented by the clock value
they render. -/
structure LogEntry where
  check_number : Nat
  timestamp : PDateTime
  temperature : Int
  feels_like : Int
  humidity : Int
  pressure : Int
  description : String
  wind_speed : Int
  cloudiness : Int
deriving DecidableEq, Repr

/-- The dictionary construction inside `save_to_log`'s `try:` block:
the same key accesses can raise `KeyError`/`IndexError`, which the
enclosing `except Exception` converts into a warning (no line written). -/
def buildLogEntry (b : WeatherBody) (checkNumber : Nat) (now : PDateTime) :
    Except PyExc LogEntry := do
  let m ← dictGet b.main
  let temp ← dictGet m.temp
  let feels ← dictGet m.feels_like
  let hum ← dictGet m.humidity
  let pres ← dictGet m.pressure
  let w ← dictGet b.weather
  let w0 ← listGet0 w
  let desc ← dictGet w0.description
  let wi ← dictGet b.wind
  let spd ← dictGet wi.speed
  let c ← dictGet b.clouds
  let cl ← dictGet c.all
  pure { check_number := checkNumber, timestamp := now, temperature := temp,
         feels_like := feels, humidity := hum, pressure := pres,
         description := desc, wind_speed := spd, cloudiness := cl }

/-- `save_to_log` (weather_auto_rabbitmq.py:256-283): appends one
serialized entry to the log file (modelled as the list of its lines);
any exception inside the body is caught and reported as a warning,
leaving the file unchanged.  The file is only ever opened in append
mode; no existing line is touched. -/
def save_to_log (b : WeatherBody) (checkNumber : Nat) (now : PDateTime)
    (log : List LogEntry) : List LogEntry :=
  match buildLogEntry b checkNumber now with
  | .ok entry => log ++ [entry]
  | .error _ => log

/-- Per-cycle external inputs of the monitoring loop: the HTTP outcome
of the weather fetch, the wall-clock value of the cycle, and whether the
broker publish (attempted only when connected) succeeds. -/
structure CycleIn where
  http : HttpResult
  now : PDateTime
  publishOk : Bool

/-- Mutable state of the monitoring loop: the `check_count` counter and
the backup-log file contents. -/
structure MonitorState where
  checkCount : Nat
  log : List LogEntry
deriving DecidableEq, Repr

/-- Per-cycle observable outputs: the fixed `time.sleep(3600)` duration
and the displayed next-check time. -/
structure CycleOut where
  sleepSeconds : Nat
  displayedNext : PDateTime
deriving DecidableEq, Repr

/-- The `while True:` loop of `hourly_weather_monitoring`
(weather_auto_rabbitmq.py:321-345), run over a finite schedule of cycle
inputs.  Each cycle increments `check_count`, fetches, and on a
successful fetch appends to the backup log via `save_to_log` and (when
connected) publishes, the publish result being print-only.  Whatever the
fetch outcome, the cycle prints the next-check time and sleeps a fixed
3600 seconds.  An exception propagating out of the fetch (neither
`RequestException` nor `KeyError`) escapes the loop: no further cycle
runs and the cycle's sleep is never reached. -/
def runMonitor (connected : Bool) (st : MonitorState) :
    List CycleIn → MonitorState × List CycleOut
  | [] => (st, [])
  | c :: rest =>
    let checkCount := st.checkCount + 1
    match (get_vienna_weather API_KEY c.http).1 with
    | .error _ => (⟨checkCount, st.log⟩, [])
    | .ok none =>
      let r := runMonitor connected ⟨checkCount, st.log⟩ rest
      (r.1, ⟨3600, nextCheckTime c.now⟩ :: r.2)
    | .ok (some b) =>
      let log' := save_to_log b checkCount c.now st.log
      let _published := connected && c.publishOk
      let r := runMonitor connected ⟨checkCount, log'⟩ rest
      (r.1, ⟨3600, nextCheckTime c.now⟩ :: r.2)

/-- `WeatherRabbitMQPublisher.connect` (weather_auto_rabbitmq.py:117-159),
abstracted over the per-attempt outcome: `outcome i = true` iff attempt
`i` completes the connection open, channel open, exchange declare, queue
declare and queue bind without raising.  `connectLoop outcome i fuel`
runs the remaining `fuel` attempts starting at index `i` and returns
(result, attempts made, number of 5-second sleeps): a failed attempt
sleeps 5 seconds iff it is not the last one (`attempt < max_retries - 1`).
Every exception is caught inside the loop; the function always returns a
boolean. -/
def connectLoop (outcome : Nat → Bool) (i : Nat) : Nat → Bool × Nat × Nat
  | 0 => (false, 0, 0)
  | fuel + 1 =>
    if outcome i then (true, 1, 0)
    else
      let sleeps := if fuel = 0 then 0 else 1
      let r := connectLoop outcome (i + 1) fuel
      (r.1, r.2.1 + 1, r.2.2 + sleeps)

/-- `connect(max_retries)`: run the attempt loop from attempt 0. -/
def connect (outcome : Nat → Bool) (maxRetries : Nat) : Bool × Nat × Nat :=
  connectLoop outcome 0 maxRetries

/-- The `message` dictionary built by
`WeatherRabbitMQPublisher.publish_weather_data`
(weather_auto_rabbitmq.py:169-177). -/
structure BrokerMessage where
  timestamp : String
  weather_check_time_ms : Nat
  city : String
  country : String
  weather_data : WeatherBody
  source : String
  api_response_time : String
deriving DecidableEq, Repr

/-- `publish_weather_data` (weather_auto_rabbitmq.py:161-195): fails
fast returning `(none, false)` when no channel is open; otherwise builds
the message — note `timestamp`, `weather_check_time_ms` and
`api_response_time` come from three separate `datetime.now()` calls,
modelled as consecutive reads `clock 0`, `clock 1`, `clock 2` of a clock
stream — then publishes it; a raising `basic_publish` is caught and
yields `false`. -/
def publish_weather_data (channelOpen : Bool) (clock : Nat → PDateTime)
    (publishRaises : Bool) (wd : WeatherBody) : Option BrokerMessage × Bool :=
  if !channelOpen then (none, false)
  else
    let message : BrokerMessage :=
      { timestamp := isoMillis (clock 0)
        weather_check_time_ms := epochMillis (clock 1)
        city := "Vienna"
        country := "Austria"
        weather_data := wd
        source := "OpenWeatherMap"
        api_response_time := isoMillis (clock 2) }
    (some message, !publishRaises)

/-! ## Concrete inputs used by witnesses and counterexamples -/

/-- A fully populated observation body (every key the code touches is
present, `weather` nonempty), mirroring the sample fixture of
`tests/conftest.py`. -/
def sampleObservation : WeatherBody :=
  { weather := some [{ description := some "clear sky" }]
    main := some { temp := some 20, feels_like := some 19, temp_min := some 15,
                   temp_max := some 25, humidity := some 65, pressure := some 1013 }
    wind := some { speed := some 3 }
    clouds := some { all := some 10 }
    visibility := some 10000 }

/-- A monitor cycle whose fetch fails (HTTP 404, caught and converted to
an absent observation). -/
def cycleFetchFails : CycleIn :=
  { http := .response 404 (.json sampleObservation)
    now := ⟨2025, 1, 1, 10, 0, 0, 0⟩
    publishOk := true }

/-- A monitor cycle whose fetch succeeds (HTTP 200, full body). -/
def cycleFetchSucceeds : CycleIn :=
  { http := .response 200 (.json sampleObservation)
    now := ⟨2025, 1, 1, 11, 0, 0, 0⟩
    publishOk := true }

/-- A clock stream that advances by one millisecond per read. -/
def tickingClock (n : Nat) : PDateTime := ⟨2025, 1, 1, 0, 0, 0, n⟩

/-- A clone environment in which the three files named by the spec's
"simple variant" sentence are present but `simple-pipeline.py` is not. -/
def cloneEnvThreeFiles : CloneEnv :=
  { inGitRepo := true, cloneExit := 0
    filePresent := fun f => !(f == "simple-pipeline.py")
    excRaised := false }

/-! ## Shared lemmas -/

theorem dictGet_err {α : Type} (o : Option α) (e : PyExc)
    (h : dictGet o = .error e) : e = .keyError := by
  cases o with
  | none =>
    simp only [dictGet] at h
    injection h with h1
    exact h1.symm
  | some v => simp [dictGet] at h

theorem listGet0_err {α : Type} (l : List α) (e : PyExc)
    (h : listGet0 l = .error e) : e = .indexError := by
  cases l with
  | nil =>
    simp only [listGet0] at h
    injection h with h1
    exact h1.symm
  | cons x xs => simp [listGet0] at h

theorem except_bind_err {α β : Type} (P : PyExc → Prop) (x : Except PyExc α)
    (f : α → Except PyExc β) (hx : ∀ e, x = .error e → P e)
    (hf : ∀ a e, f a = .error e → P e) :
    ∀ e, (x >>= f) = .error e → P e := by
  intro e h
  cases x with
  | error e' =>
    simp only [Bind.bind, Except.bind] at h
    injection h with h1
    exact h1 ▸ hx e' rfl
  | ok a =>
    simp only [Bind.bind, Except.bind] at h
    exact hf a e h

/-- The report accesses can raise only `KeyError` or `IndexError`. -/
theorem renderAccesses_err (b : WeatherBody) :
    ∀ e, renderAccesses b = .error e → e = .keyError ∨ e = .indexError := by
  unfold renderAccesses
  refine except_bind_err _ _ _ (fun e h => Or.inl (dictGet_err _ e h)) ?_
  intro w
  refine except_bind_err _ _ _ (fun e h => Or.inr (listGet0_err _ e h)) ?_
  intro w0
  refine except_bind_err _ _ _ (fun e h => Or.inl (dictGet_err _ e h)) ?_
  intro _
  refine except_bind_err _ _ _ (fun e h => Or.inl (dictGet_err _ e h)) ?_
  intro m
  refine except_bind_err _ _ _ (fun e h => Or.inl (dictGet_err _ e h)) ?_
  intro _
  refine except_bind_err _ _ _ (fun e h => Or.inl (dictGet_err _ e h)) ?_
  intro _
  refine except_bind_err _ _ _ (fun e h => Or.inl (dictGet_err _ e h)) ?_
  intro _
  refine except_bind_err _ _ _ (fun e h => Or.inl (dictGet_err _ e h)) ?_
  intro _
  refine except_bind_err _ _ _ (fun e h => Or.inl (dictGet_err _ e h)) ?_
  intro _
  refine except_bind_err _ _ _ (fun e h => Or.inl (dictGet_err _ e h)) ?_
  intro wi
  refine except_bind_err _ _ _ (fun e h => Or.inl (dictGet_err _ e h)) ?_
  intro _
  refine except_bind_err _ _ _ (fun e h => Or.inl (dictGet_err _ e h)) ?_
  intro _
  refine except_bind_err _ _ _ (fun e h => Or.inl (dictGet_err _ e h)) ?_
  intro c
  refine except_bind_err _ _ _ (fun e h => Or.inl (dictGet_err _ e h)) ?_
  intro _ e h
  simp [pure, Except.pure] at h

theorem connectLoop_attempts_le (o : Nat → Bool) (fuel : Nat) :
    ∀ i, (connectLoop o i fuel).2.1 ≤ fuel := by
  induction fuel with
  | zero => intro i; simp [connectLoop]
  | succ f ih =>
    intro i
    simp only [connectLoop]
    by_cases h : o i
    · simp [h]
    · simp only [h, if_neg Bool.false_ne_true]
      exact Nat.succ_le_succ (ih (i + 1))

theorem connectLoop_all_fail (o : Nat → Bool) (fuel : Nat) :
    ∀ i, (∀ j, j < fuel → o (i + j) = false) →
      connectLoop o i fuel = (false, fuel, fuel - 1) := by
  induction fuel with
  | zero => intro i _; simp [connectLoop]
  | succ f ih =>
    intro i h
    have h0 : o i = false := by simpa using h 0 (Nat.succ_pos f)
    have hrec : connectLoop o (i + 1) f = (false, f, f - 1) := by
      apply ih
      intro j hj
      have := h (j + 1) (Nat.succ_lt_succ hj)
      simpa [Nat.add_comm, Nat.add_left_comm, Nat.add_assoc] using this
    simp only [connectLoop, h0, if_neg Bool.false_ne_true, hrec]
    cases f with
    | zero => simp
    | succ f' => simp

theorem connectLoop_first_success (o : Nat → Bool) (fuel : Nat) :
    ∀ i k, k < fuel → o (i + k) = true → (∀ j, j < k → o (i + j) = false) →
      connectLoop o i fuel = (true, k + 1, k) := by
  induction fuel with
  | zero => intro i k hk _ _; exact absurd hk (Nat.not_lt_zero k)
  | succ f ih =>
    intro i k hk hsucc hfail
    cases k with
    | zero =>
      have h0 : o i = true := by simpa using hsucc
      simp [connectLoop, h0]
    | succ k' =>
      have h0 : o i = false := by simpa using hfail 0 (Nat.succ_pos k')
      have hrec : connectLoop o (i + 1) f = (true, k' + 1, k') := by
        apply ih (i + 1) k' (by omega)
        · have := hsucc
          simpa [Nat.add_comm, Nat.add_left_comm, Nat.add_assoc] using this
        · intro j hj
          have := hfail (j + 1) (Nat.succ_lt_succ hj)
          simpa [Nat.add_comm, Nat.add_left_comm, Nat.add_assoc] using this
      have hf : f ≠ 0 := by omega
      simp [connectLoop, h0, hrec, hf]

theorem runMonitor_sleeps (conn : Bool) (cs : List CycleIn) :
    ∀ st, ∀ o ∈ (runMonitor conn st cs).2, o.sleepSeconds = 3600 := by
  induction cs with
  | nil => intro st o ho; simp [runMonitor] at ho
  | cons c rest ih =>
    intro st o ho
    simp only [runMonitor] at ho
    cases hfetch : (get_vienna_weather API_KEY c.http).1 with
    | error e => simp [hfetch] at ho
    | ok ob =>
      cases ob with
      | none =>
        simp only [hfetch] at ho
        rcases List.mem_cons.mp ho with h | h
        · rw [h]
        · exact ih _ o h
      | some b =>
        simp only [hfetch] at ho
        rcases List.mem_cons.mp ho with h | h
        · rw [h]
        · exact ih _ o h

theorem run_stage_clone_notifs_len (e : CloneEnv) (n : NotifResult) :
    (run_stage_clone e n).notifs.length = 1 := by
  unfold run_stage_clone
  repeat' split
  all_goals rfl

theorem run_stage_build_notifs_len (bx : Bool) (n : NotifResult) :
    (run_stage_build bx n).notifs.length = 1 := by
  unfold run_stage_build
  split
  all_goals rfl

theorem run_stage_unittest_notifs_len (ue : UnittestEnv) (n : NotifResult) :
    (run_stage_unittest ue n).notifs.length = 1 := by
  unfold run_stage_unittest
  repeat' split
  all_goals rfl

theorem run_stage_deploy_notifs_len (de : DeployEnv) (n : NotifResult) :
    (run_stage_deploy de n).notifs.length = 1 := by
  unfold run_stage_deploy
  repeat' split
  all_goals rfl

theorem fetchTryBody_ok (http : HttpResult) (b : WeatherBody)
    (h : fetchTryBody http = .ok b) : renderAccesses b = .ok () := by
  cases http with
  | transportFail => simp [fetchTryBody] at h
  | response s body =>
    simp only [fetchTryBody] at h
    by_cases hs : 400 ≤ s ∧ s < 600
    · rw [if_pos hs] at h
      simp at h
    · rw [if_neg hs] at h
      cases body with
      | invalidJson => simp at h
      | json b' =>
        cases hr : renderAccesses b' with
        | error e =>
          simp only [Bind.bind, Except.bind, hr] at h
          exact Except.noConfusion h
        | ok u =>
          simp only [Bind.bind, Except.bind, hr, pure, Except.pure] at h
          injection h with h1
          cases u
          exact h1 ▸ hr

theorem fetch_some_renders (key : String) (http : HttpResult)
    (b : WeatherBody) (h : (get_vienna_weather key http).1 = .ok (some b)) :
    renderAccesses b = .ok () := by
  unfold get_vienna_weather at h
  by_cases hk : key = "YOUR_API_KEY_HERE"
  · rw [if_pos hk] at h
    simp at h
  · rw [if_neg hk] at h
    cases hf : fetchTryBody http with
    | ok b' =>
      rw [hf] at h
      simp at h
      exact h ▸ fetchTryBody_ok http b' hf
    | error e =>
      rw [hf] at h
      by_cases he : e.isRequestException = true
      · simp [he] at h
      · by_cases hke : e = PyExc.keyError
        · simp [he, hke] at h
        · simp [he, hke] at h

theorem buildLogEntry_of_renders (b : WeatherBody) (k : Nat)
    (now : PDateTime) (hr : renderAccesses b = .ok ()) :
    ∃ entry, buildLogEntry b k now = .ok entry
      ∧ entry.check_number = k := by
  rcases b with ⟨ow, om, owi, oc, ov⟩
  cases ow with
  | none => simp [renderAccesses, dictGet, Bind.bind, Except.bind] at hr
  | some w =>
  cases w with
  | nil =>
    simp [renderAccesses, dictGet, listGet0, Bind.bind, Except.bind] at hr
  | cons w0 ws =>
  rcases w0 with ⟨od⟩
  cases od with
  | none =>
    simp [renderAccesses, dictGet, listGet0, Bind.bind, Except.bind] at hr
  | some d =>
  cases om with
  | none =>
    simp [renderAccesses, dictGet, listGet0, Bind.bind, Except.bind] at hr
  | some m =>
  rcases m with ⟨ot, ofl, otmin, otmax, ohu, opr⟩
  cases ot with
  | none =>
    simp [renderAccesses, dictGet, listGet0, Bind.bind, Except.bind] at hr
  | some t =>
  cases ofl with
  | none =>
    simp [renderAccesses, dictGet, listGet0, Bind.bind, Except.bind] at hr
  | some fl =>
  cases otmin with
  | none =>
    simp [renderAccesses, dictGet, listGet0, Bind.bind, Except.bind] at hr
  | some tmin =>
  cases otmax with
  | none =>
    simp [renderAccesses, dictGet, listGet0, Bind.bind, Except.bind] at hr
  | some tmax =>
  cases ohu with
  | none =>
    simp [renderAccesses, dictGet, listGet0, Bind.bind, Except.bind] at hr
  | some hu =>
  cases owi with
  | none =>
    simp [renderAccesses, dictGet, listGet0, Bind.bind, Except.bind] at hr
  | some wi =>
  rcases wi with ⟨os⟩
  cases os with
  | none =>
    simp [renderAccesses, dictGet, listGet0, Bind.bind, Except.bind] at hr
  | some sp =>
  cases opr with
  | none =>
    simp [renderAccesses, dictGet, listGet0, Bind.bind, Except.bind] at hr
  | some pr =>
  cases oc with
  | none =>
    simp [renderAccesses, dictGet, listGet0, Bind.bind, Except.bind] at hr
  | some cl =>
  rcases cl with ⟨oca⟩
  cases oca with
  | none =>
    simp [renderAccesses, dictGet, listGet0, Bind.bind, Except.bind] at hr
  | some ca =>
    exact ⟨_, rfl, rfl⟩

theorem runMonitor_log_prefix (conn : Bool) (cs : List CycleIn) :
    ∀ st : MonitorState, st.log <+: (runMonitor conn st cs).1.log := by
  induction cs with
  | nil => intro st; simp [runMonitor]
  | cons c rest ih =>
    intro st
    simp only [runMonitor]
    cases hfetch : (get_vienna_weather API_KEY c.http).1 with
    | error e => simp
    | ok ob =>
      cases ob with
      | none => simpa using ih ⟨st.checkCount + 1, st.log⟩
      | some b =>
        refine List.IsPrefix.trans ?_
          (ih ⟨st.checkCount + 1, save_to_log b (st.checkCount + 1) c.now st.log⟩)
        unfold save_to_log
        cases buildLogEntry b (st.checkCount + 1) c.now with
        | ok entry => exact List.prefix_append _ _
        | error e => exact List.prefix_refl _

theorem runMonitor_log_bounds (conn : Bool) (cs : List CycleIn) :
    ∀ st : MonitorState,
      (∀ x ∈ st.log, x.check_number ≤ st.checkCount) →
      ((st.log.map fun x => x.check_number).Pairwise (· < ·)) →
      (∀ x ∈ (runMonitor conn st cs).1.log,
          x.check_number ≤ (runMonitor conn st cs).1.checkCount)
      ∧ (((runMonitor conn st cs).1.log.map fun x => x.check_number).Pairwise
          (· < ·)) := by
  induction cs with
  | nil =>
    intro st h1 h2
    simpa [runMonitor] using ⟨h1, h2⟩
  | cons c rest ih =>
    intro st h1 h2
    simp only [runMonitor]
    cases hfetch : (get_vienna_weather API_KEY c.http).1 with
    | error e =>
      refine ⟨fun x hx => ?_, h2⟩
      exact Nat.le_succ_of_le (h1 x hx)
    | ok ob =>
      cases ob with
      | none =>
        refine ih ⟨st.checkCount + 1, st.log⟩ ?_ h2
        intro x hx
        exact Nat.le_succ_of_le (h1 x hx)
      | some b =>
        have hrend : renderAccesses b = .ok () :=
          fetch_some_renders API_KEY c.http b hfetch
        obtain ⟨entry, hbuild, hcn⟩ :=
          buildLogEntry_of_renders b (st.checkCount + 1) c.now hrend
        have hsave : save_to_log b (st.checkCount + 1) c.now st.log
            = st.log ++ [entry] := by
          unfold save_to_log
          rw [hbuild]
        simp only []
        rw [hsave]
        refine ih ⟨st.checkCount + 1, st.log ++ [entry]⟩ ?_ ?_
        · intro x hx
          rcases List.mem_append.mp hx with hx | hx
          · exact Nat.le_succ_of_le (h1 x hx)
          · rw [List.mem_singleton.mp hx, hcn]
        · rw [List.map_append]
          rw [List.pairwise_append]
          refine ⟨h2, List.pairwise_singleton _ _, ?_⟩
          intro a ha bb hbb
          rw [List.map_singleton, List.mem_singleton] at hbb
          obtain ⟨x, hx, hax⟩ := List.mem_map.mp ha
          rw [hbb, hcn, ← hax]
          exact Nat.lt_succ_of_le (h1 x hx)

theorem runMonitor_conn_eq (cs : List CycleIn) :
    ∀ (st : MonitorState) (c1 c2 : Bool),
      runMonitor c1 st cs = runMonitor c2 st cs := by
  induction cs with
  | nil => intro st c1 c2; rfl
  | cons c rest ih =>
    intro st c1 c2
    simp only [runMonitor]
    cases hfetch : (get_vienna_weather API_KEY c.http).1 with
    | error e => simp
    | ok ob =>
      cases ob with
      | none =>
        simp only []
        rw [ih ⟨st.checkCount + 1, st.log⟩ c1 c2]
      | some b =>
        simp only []
        rw [ih ⟨st.checkCount + 1,
          save_to_log b (st.checkCount + 1) c.now st.log⟩ c1 c2]

/-! ## Claim theorems -/

/-- C1: stages execute strictly in the order clone, build, unittest,
deploy (the executed list is always the length-matching prefix of the
stage order, extended past the halting stage by nothing); the reported
`success_count` equals the number of stages that returned the continue
signal (clone failing gives 0); the process exit status is 0 iff all
four stages completed and 1 otherwise, including when an uncaught
exception escapes pipeline construction or execution. -/
theorem c1_stage_sequencing_and_exit (e : PipelineEnv)
    (notif : Nat → NotifResult) :
    (run_pipeline e notif).executed
        = pipelineStages.take ((run_pipeline e notif).successCount + 1)
    ∧ ((run_pipeline e notif).overall = true
        ↔ (run_pipeline e notif).successCount = 4)
    ∧ ((run_stage_clone e.clone (notif 0)).cont = false
        → (run_pipeline e notif).successCount = 0
          ∧ (run_pipeline e notif).executed = ["clone"])
    ∧ mainExit (.ok (run_pipeline e notif).overall)
        = (if (run_pipeline e notif).successCount = 4 then 0 else 1)
    ∧ mainExit (.error ()) = 1 := by
  unfold run_pipeline
  cases h1 : (run_stage_clone e.clone (notif 0)).cont <;>
  cases h2 : (run_stage_build e.buildExc (notif 1)).cont <;>
  cases h3 : (run_stage_unittest e.ut (notif 2)).cont <;>
  cases h4 : (run_stage_deploy e.deploy (notif 3)).cont <;>
    simp [h1, h2, h3, h4, pipelineStages, mainExit]

theorem c1_stage_sequencing_and_exit_witness :
    (run_pipeline
        ⟨cloneEnvThreeFiles, false, ⟨true, true, true, false⟩,
          ⟨true, true, true, false⟩⟩ (fun _ => .exn)).successCount = 0 :=
  ((c1_stage_sequencing_and_exit
      ⟨cloneEnvThreeFiles, false, ⟨true, true, true, false⟩,
        ⟨true, true, true, false⟩⟩ (fun _ => .exn)).2.2.1 (by decide)).1

/-- C6 counterexample: in an environment where the three files named by
the claim are present but `simple-pipeline.py` is absent, the clone
stage fails (the claim predicts success); and in an all-files-present
environment the stage performs the commit-hash inspection
(`git rev-parse`) that the claim says never happens. -/
theorem c6_clone_stage_counterexample :
    cloneEnvThreeFiles.filePresent "weather_auto_rabbitmq.py" = true
    ∧ cloneEnvThreeFiles.filePresent "docker-compose.yml" = true
    ∧ cloneEnvThreeFiles.filePresent "pipeline-config.json" = true
    ∧ (run_stage_clone cloneEnvThreeFiles .exn).status = Status.failed
    ∧ (run_stage_clone cloneEnvThreeFiles .exn).cont = false
    ∧ CloneAction.gitRevParseCall ∈
        clone_actions { cloneEnvThreeFiles with filePresent := fun _ => true } := by
  decide

/-- C6 (amended): the clone stage skips cloning exactly when a `.git`
marker is present (otherwise it clones and a non-zero clone exit fails
the stage); it validates four required files (`weather_auto_rabbitmq.py`,
`docker-compose.yml`, `pipeline-config.json`, `simple-pipeline.py`),
succeeding iff the clone (when performed) succeeded and all four are
present; and it performs a best-effort commit-hash inspection exactly on
the success path. -/
theorem c6_clone_stage_amended (e : CloneEnv) (n : NotifResult)
    (hexc : e.excRaised = false) :
    requiredFilesClone = ["weather_auto_rabbitmq.py", "docker-compose.yml",
        "pipeline-config.json", "simple-pipeline.py"]
    ∧ ((run_stage_clone e n).status = Status.success ↔
        (e.inGitRepo = true ∨ e.cloneExit = 0)
        ∧ ∀ f ∈ requiredFilesClone, e.filePresent f = true)
    ∧ ((run_stage_clone e n).cont = true ↔
        (run_stage_clone e n).status = Status.success)
    ∧ (CloneAction.gitCloneCall ∈ clone_actions e ↔ e.inGitRepo = false)
    ∧ (CloneAction.gitRevParseCall ∈ clone_actions e ↔
        (run_stage_clone e n).status = Status.success) := by
  have hmiss : ((missingFiles e).isEmpty = true)
      ↔ ∀ f ∈ requiredFilesClone, e.filePresent f = true := by
    simp [missingFiles, List.isEmpty_iff, List.filter_eq_nil_iff]
  have hb : ((e.cloneExit != 0) = false) ↔ e.cloneExit = 0 := by simp
  refine ⟨rfl, ?_, ?_, ?_, ?_⟩ <;>
    cases hg : e.inGitRepo <;>
    cases hc : (e.cloneExit != 0) <;>
    cases hm : (missingFiles e).isEmpty <;>
    simp_all [run_stage_clone, clone_actions, requiredFilesClone]

theorem c6_clone_stage_amended_witness :
    (run_stage_clone ⟨true, 0, fun _ => true, false⟩ .exn).status
      = Status.success :=
  ((c6_clone_stage_amended ⟨true, 0, fun _ => true, false⟩ .exn rfl).2.1).mpr
    ⟨Or.inl rfl, by decide⟩

/-- C7: the outcome of every notification send attempt is discarded by
`send_notification`, so two pipeline runs that differ only in the
notification outcomes (e.g. an unreachable search engine) produce
identical stage results, continue signals and exit status; each executed
stage attempts exactly one send, and the whole run attempts
`executed + 1` sends (one per executed stage plus the final pipeline
summary). -/
theorem c7_notification_noninterference (e : PipelineEnv)
    (n1 n2 : Nat → NotifResult) :
    run_pipeline e n1 = run_pipeline e n2
    ∧ mainExit (.ok (run_pipeline e n1).overall)
        = mainExit (.ok (run_pipeline e n2).overall)
    ∧ (∀ ce n, (run_stage_clone ce n).notifs.length = 1)
    ∧ (∀ bx n, (run_stage_build bx n).notifs.length = 1)
    ∧ (∀ ue n, (run_stage_unittest ue n).notifs.length = 1)
    ∧ (∀ de n, (run_stage_deploy de n).notifs.length = 1)
    ∧ (run_pipeline e n1).notifDocs.length
        = (run_pipeline e n1).executed.length + 1 := by
  refine ⟨rfl, rfl, run_stage_clone_notifs_len, run_stage_build_notifs_len,
    run_stage_unittest_notifs_len, run_stage_deploy_notifs_len, ?_⟩
  unfold run_pipeline
  cases h1 : (run_stage_clone e.clone (n1 0)).cont <;>
  cases h2 : (run_stage_build e.buildExc (n1 1)).cont <;>
  cases h3 : (run_stage_unittest e.ut (n1 2)).cont <;>
  cases h4 : (run_stage_deploy e.deploy (n1 3)).cont <;>
    simp [h1, h2, h3, h4, run_stage_clone_notifs_len, run_stage_build_notifs_len,
      run_stage_unittest_notifs_len, run_stage_deploy_notifs_len]

/-- C3 counterexample: a non-2xx response (status 304) with a complete
JSON body is not converted to an absent result: `raise_for_status`
raises only for status codes 400-599, so the fetch proceeds to parse the
body and returns the observation, refuting "non-2xx status implies
absent". -/
theorem c3_fetch_counterexample :
    get_vienna_weather "k" (.response 304 (.json sampleObservation))
      = (.ok (some sampleObservation), true)
    ∧ ¬ (200 ≤ 304 ∧ 304 < 300) := by
  exact ⟨rfl, by omega⟩

/-- C3 (amended): the weather fetch returns an absent value and
propagates no fault when the configured key is the placeholder (with no
network call), on a transport-level failure, on a 4xx/5xx status (the
range `raise_for_status` actually raises for — not every non-2xx
status), and on a missing expected dictionary key; on a 2xx response
with all expected keys present it returns the parsed observation. -/
theorem c3_fetch_error_handling (key : String)
    (hkey : key ≠ "YOUR_API_KEY_HERE") :
    (∀ http, get_vienna_weather "YOUR_API_KEY_HERE" http = (.ok none, false))
    ∧ get_vienna_weather key .transportFail = (.ok none, true)
    ∧ (∀ s b, 400 ≤ s → s < 600 →
        get_vienna_weather key (.response s b) = (.ok none, true))
    ∧ (∀ s b, ¬ (400 ≤ s ∧ s < 600) → renderAccesses b = .error .keyError →
        get_vienna_weather key (.response s (.json b)) = (.ok none, true))
    ∧ (∀ s b, 200 ≤ s → s < 300 → renderAccesses b = .ok () →
        get_vienna_weather key (.response s (.json b))
          = (.ok (some b), true)) := by
  refine ⟨fun _ => rfl, ?_, ?_, ?_, ?_⟩
  · simp [get_vienna_weather, fetchTryBody, hkey, PyExc.isRequestException]
  · intro s b h4 h6
    have hs : 400 ≤ s ∧ s < 600 := ⟨h4, h6⟩
    simp [get_vienna_weather, fetchTryBody, hkey, hs, PyExc.isRequestException]
  · intro s b hns hre
    simp [get_vienna_weather, fetchTryBody, hkey, hns, hre, Bind.bind,
      Except.bind, PyExc.isRequestException]
  · intro s b h2 h3 hre
    have hns : ¬ (400 ≤ s ∧ s < 600) := by omega
    simp [get_vienna_weather, fetchTryBody, hkey, hns, hre, Bind.bind,
      Except.bind, pure, Except.pure]

theorem c3_fetch_error_handling_witness :
    get_vienna_weather API_KEY (.response 200 (.json sampleObservation))
      = (.ok (some sampleObservation), true) :=
  (c3_fetch_error_handling API_KEY (by decide)).2.2.2.2 200 sampleObservation
    (by omega) (by omega) rfl

/-- C10 counterexample: a success-status response whose body is not
valid JSON is converted to an absent result, not propagated: since
requests 2.27, `response.json()` raises
`requests.exceptions.JSONDecodeError`, which is a `RequestException`
subclass and is therefore caught by the first except clause. -/
theorem c10_invalid_json_counterexample :
    get_vienna_weather API_KEY (.response 200 .invalidJson) = (.ok none, true)
    ∧ PyExc.isRequestException .jsonDecodeError = true :=
  ⟨rfl, rfl⟩

/-- C10 (amended): the fetch catches exactly the exceptions that are
`RequestException` instances or `KeyError`; under requests ≥ 2.27 the
JSON-decode failure of `response.json()` is itself a `RequestException`
subclass, so an invalid JSON body on a non-error status yields an absent
result rather than propagating; the only exception kind that propagates
uncaught to the caller is `IndexError` (e.g. from an empty `weather`
list), and the report accesses can raise only `KeyError` or
`IndexError`. -/
theorem c10_fetch_exception_classes (key : String)
    (hkey : key ≠ "YOUR_API_KEY_HERE") :
    (∀ s, ¬ (400 ≤ s ∧ s < 600) →
        get_vienna_weather key (.response s .invalidJson) = (.ok none, true))
    ∧ (∀ http e, (get_vienna_weather key http).1 = .error e → e = .indexError)
    ∧ (∀ b e, renderAccesses b = .error e → e = .keyError ∨ e = .indexError)
    ∧ (∀ s b, ¬ (400 ≤ s ∧ s < 600) → b.weather = some [] →
        (get_vienna_weather key (.response s (.json b))).1
          = .error .indexError) := by
  refine ⟨?_, ?_, ?_, ?_⟩
  · intro s hns
    simp [get_vienna_weather, fetchTryBody, hkey, hns, PyExc.isRequestException]
  · intro http e h
    unfold get_vienna_weather at h
    rw [if_neg hkey] at h
    cases hf : fetchTryBody http with
    | ok b => rw [hf] at h; simp at h
    | error e' =>
      rw [hf] at h
      cases e' <;> simp [PyExc.isRequestException] at h
      exact h.symm
  · intro b e h
    exact renderAccesses_err b e h
  · intro s b hns hw
    have hr : renderAccesses b = .error .indexError := by
      unfold renderAccesses
      rw [hw]
      simp [dictGet, listGet0, Bind.bind, Except.bind]
    simp [get_vienna_weather, fetchTryBody, hkey, hns, hr, Bind.bind,
      Except.bind, PyExc.isRequestException]

theorem c10_fetch_exception_classes_witness :
    get_vienna_weather "k" (.response 200 .invalidJson) = (.ok none, true) :=
  (c10_fetch_exception_classes "k" (by decide)).1 200 (by omega)

/-- C4 counterexample: when the first fetch fails and the second
succeeds, the only appended backup-log entry has `check_number = 2` —
the `check_number` values of the appended entries do not start at 1,
because the counter advances on every cycle while entries are appended
only on successful fetches. -/
theorem c4_check_number_counterexample :
    ((runMonitor true ⟨0, []⟩ [cycleFetchFails, cycleFetchSucceeds]).1.log.map
        (fun x => x.check_number)) = [2]
    ∧ ((runMonitor true ⟨0, []⟩ [cycleFetchFails, cycleFetchSucceeds]).1.log.map
        (fun x => x.check_number)).head? ≠ some 1 := by
  have h : ((runMonitor true ⟨0, []⟩
      [cycleFetchFails, cycleFetchSucceeds]).1.log.map
        (fun x => x.check_number)) = [2] := rfl
  exact ⟨h, by rw [h]; decide⟩

/-- C4 (amended): over one monitor run, each cycle with a successful
fetch appends exactly one entry to the backup log, carrying
`check_number` equal to that cycle's 1-based index (so the values are
strictly increasing, but equal 1 for the first entry only when the first
fetch succeeds); a cycle with a failed fetch appends nothing; the
initial log contents always remain an unmodified prefix (append-only);
and the log contents are identical whether or not the broker is
connected. -/
theorem c4_backup_log_invariants :
    (∀ (conn : Bool) (st : MonitorState) (c : CycleIn) (rest : List CycleIn)
        (b : WeatherBody),
        (get_vienna_weather API_KEY c.http).1 = .ok (some b) →
        ∃ entry, entry.check_number = st.checkCount + 1
          ∧ save_to_log b (st.checkCount + 1) c.now st.log = st.log ++ [entry]
          ∧ (runMonitor conn st (c :: rest)).1.log
              = (runMonitor conn ⟨st.checkCount + 1, st.log ++ [entry]⟩
                  rest).1.log)
    ∧ (∀ (conn : Bool) (st : MonitorState) (c : CycleIn)
        (rest : List CycleIn),
        (get_vienna_weather API_KEY c.http).1 = .ok none →
        (runMonitor conn st (c :: rest)).1.log
          = (runMonitor conn ⟨st.checkCount + 1, st.log⟩ rest).1.log)
    ∧ (∀ (conn : Bool) (st : MonitorState) (cs : List CycleIn),
        st.log <+: (runMonitor conn st cs).1.log)
    ∧ (∀ (conn : Bool) (cs : List CycleIn),
        (((runMonitor conn ⟨0, []⟩ cs).1.log.map
            (fun x => x.check_number)).Pairwise (· < ·)))
    ∧ (∀ (st : MonitorState) (cs : List CycleIn),
        (runMonitor true st cs).1.log = (runMonitor false st cs).1.log) := by
  refine ⟨?_, ?_, ?_, ?_, ?_⟩
  · intro conn st c rest b hfetch
    have hrend : renderAccesses b = .ok () :=
      fetch_some_renders API_KEY c.http b hfetch
    obtain ⟨entry, hbuild, hcn⟩ :=
      buildLogEntry_of_renders b (st.checkCount + 1) c.now hrend
    have hsave : save_to_log b (st.checkCount + 1) c.now st.log
        = st.log ++ [entry] := by
      unfold save_to_log
      rw [hbuild]
    refine ⟨entry, hcn, hsave, ?_⟩
    simp only [runMonitor, hfetch]
    rw [hsave]
  · intro conn st c rest hfetch
    simp only [runMonitor, hfetch]
  · intro conn st cs
    exact runMonitor_log_prefix conn cs st
  · intro conn cs
    exact (runMonitor_log_bounds conn cs ⟨0, []⟩ (by simp) (by simp)).2
  · intro st cs
    rw [runMonitor_conn_eq cs st true false]

theorem c4_backup_log_invariants_witness :
    (runMonitor true ⟨0, []⟩ [cycleFetchFails]).1.log
      = (runMonitor true ⟨1, []⟩ []).1.log :=
  c4_backup_log_invariants.2.1 true ⟨0, []⟩ cycleFetchFails [] rfl

/-- C2: in the deploy stage, with exactly `k` of the 3 live-service
probes succeeding, the recorded stage status is `success` when `k ≥ 2`
and `warning` when `k < 2`; in both cases the stage returns the continue
signal; only an unexpected exception in the stage body records `failed`
and halts. -/
theorem c2_deploy_threshold (e : DeployEnv) (n : NotifResult) (k : Nat)
    (hexc : e.excRaised = false)
    (hk : (if e.esOk then 1 else 0) + (if e.kibanaOk then 1 else 0)
        + (if e.rabbitOk then 1 else 0) = k) :
    (run_stage_deploy e n).status
        = (if 2 ≤ k then Status.success else Status.warning)
    ∧ (run_stage_deploy e n).cont = true
    ∧ run_stage_deploy { e with excRaised := true } n
        = ⟨.failed, false, [("deploy", Status.failed)]⟩ := by
  subst hk
  rcases e with ⟨es, kb, rb, exc⟩
  cases hexc
  refine ⟨?_, ?_, ?_⟩ <;> cases es <;> cases kb <;> cases rb <;>
    simp [run_stage_deploy]

theorem c2_deploy_threshold_witness :
    (run_stage_deploy ⟨true, true, false, false⟩ .exn).status = Status.success
    ∧ (run_stage_deploy ⟨true, false, false, false⟩ .exn).status
        = Status.warning := by
  constructor
  · exact ((c2_deploy_threshold ⟨true, true, false, false⟩ .exn 2 rfl
      (by decide)).1).trans (by decide)
  · exact ((c2_deploy_threshold ⟨true, false, false, false⟩ .exn 1 rfl
      (by decide)).1).trans (by decide)

/-- C5: for every `maxRetries ≥ 1`, `connect` makes at most `maxRetries`
attempts; it returns true with `i + 1` attempts and `i` five-second
waits when attempt `i` is the first to succeed (so the wait happens
between consecutive failed attempts only); it returns false after
`maxRetries` failed attempts with `maxRetries - 1` waits (no wait after
the last attempt), never raising to the caller (it is a total boolean
function). -/
theorem c5_connect_bounded_retry (outcome : Nat → Bool) (m : Nat)
    (hm : 1 ≤ m) :
    (connect outcome m).2.1 ≤ m
    ∧ ((∀ j, j < m → outcome j = false) → connect outcome m = (false, m, m - 1))
    ∧ (∀ i, i < m → outcome i = true → (∀ j, j < i → outcome j = false) →
        connect outcome m = (true, i + 1, i)) := by
  refine ⟨connectLoop_attempts_le outcome m 0, ?_, ?_⟩
  · intro h
    apply connectLoop_all_fail
    intro j hj
    simpa using h j hj
  · intro i hi hsucc hfail
    apply connectLoop_first_success outcome m 0 i hi
    · simpa using hsucc
    · intro j hj
      simpa using hfail j hj

theorem c5_connect_bounded_retry_witness :
    connect (fun j => j == 1) 3 = (true, 2, 1) :=
  (c5_connect_bounded_retry (fun j => j == 1) 3 (by decide)).2.2 1 (by decide)
    (by decide) (by intro j hj; simp only [beq_eq_false_iff_ne]; omega)

/-- C8: at the end of every monitoring cycle, the displayed next-check
time has hour `(h + 1) % 24`, zeroed minute and second, and an unchanged
date; at `h = 23` the displayed time is strictly earlier than the
current time; and the actual wait of every cycle is the fixed
3600-second sleep, independent of the displayed value. -/
theorem c8_next_check_display (t : PDateTime) (ht : t.hour < 24) :
    (nextCheckTime t).hour = (t.hour + 1) % 24
    ∧ (nextCheckTime t).minute = 0
    ∧ (nextCheckTime t).second = 0
    ∧ (nextCheckTime t).year = t.year
    ∧ (nextCheckTime t).month = t.month
    ∧ (nextCheckTime t).day = t.day
    ∧ (t.hour = 23 → PDateTime.lt (nextCheckTime t) t = true)
    ∧ (∀ conn st cs, ∀ o ∈ (runMonitor conn st cs).2, o.sleepSeconds = 3600) := by
  refine ⟨rfl, rfl, rfl, rfl, rfl, rfl, ?_, ?_⟩
  · intro h23
    simp [PDateTime.lt, nextCheckTime, h23]
  · intro conn st cs
    exact runMonitor_sleeps conn cs st

theorem c8_next_check_display_witness :
    PDateTime.lt (nextCheckTime ⟨2025, 6, 30, 23, 59, 59, 999⟩)
      ⟨2025, 6, 30, 23, 59, 59, 999⟩ = true :=
  (c8_next_check_display ⟨2025, 6, 30, 23, 59, 59, 999⟩
    (by decide)).2.2.2.2.2.2.1 rfl

/-- C9 counterexample: with a clock that advances one millisecond
between the `datetime.now()` reads of `publish_weather_data`, the
constructed message has `timestamp ≠ api_response_time`, refuting the
claim that the two strings in one message are always equal. -/
theorem c9_duplicate_timestamp_counterexample :
    ((publish_weather_data true tickingClock false sampleObservation).1.map
      (fun m => m.timestamp == m.api_response_time)) = some false := by
  decide

/-- C9 (amended): every message built by `publish_weather_data` holds
the constants `"Vienna"`, `"Austria"`, `"OpenWeatherMap"` and wraps the
given observation; `timestamp` and `api_response_time` come from two
separate clock reads (`clock 0` and `clock 2`) formatted identically, so
they are equal whenever the two reads yield the same clock value, but
not in general. -/
theorem c9_broker_message_fields (clock : Nat → PDateTime)
    (wd : WeatherBody) (pr : Bool) :
    ∃ m : BrokerMessage,
      (publish_weather_data true clock pr wd).1 = some m
      ∧ m.city = "Vienna"
      ∧ m.country = "Austria"
      ∧ m.source = "OpenWeatherMap"
      ∧ m.weather_data = wd
      ∧ m.timestamp = isoMillis (clock 0)
      ∧ m.api_response_time = isoMillis (clock 2)
      ∧ (clock 0 = clock 2 → m.timestamp = m.api_response_time) := by
  refine ⟨_, rfl, rfl, rfl, rfl, rfl, rfl, rfl, ?_⟩
  intro h
  exact congrArg isoMillis h

theorem c9_broker_message_fields_witness :
    ∃ m : BrokerMessage,
      (publish_weather_data true (fun _ => ⟨2025, 1, 1, 0, 0, 0, 0⟩) false
        sampleObservation).1 = some m
      ∧ m.timestamp = m.api_response_time := by
  obtain ⟨m, h1, -, -, -, -, -, -, himp⟩ :=
    c9_broker_message_fields (fun _ => ⟨2025, 1, 1, 0, 0, 0, 0⟩)
      sampleObservation false
  exact ⟨m, h1, himp rfl⟩

end ViennaWeather
